import Mathlib

/-!
Shallow embedding of the debt-spiral simulation engine of
`src/DebtDeathSpiral/ds_v5.py` (classes `Loan`, `Market`,
`DebtSpiralSimulator`), together with theorems settling the claims about
its specification.

Modelling conventions:
* Python floats are modelled as exact rationals (`ℚ`); the engine's logic
  is arithmetic-and-comparison only, so `ℚ` gives the ideal semantics of
  the code.
* Python's `round(x, n)` (banker's rounding, half to even) is modelled
  exactly by `pyRoundInt` on rationals.
* Python dicts used as fixed lookup tables (`ORG_TIER_MAP`,
  `ACCT_TYPE_MAP`, `DEFAULT_RATES`) are association lists; `dict.get`
  with a default is `List.lookup` followed by `Option.getD`.
* A missing or NaN `rate` argument of `Loan.__init__` is modelled by
  `Option.none`.
* The `Market` object holds only its immutable config, so the config is
  stored directly in the simulator state.
* Python number-to-string formatting inside log `detail` strings
  (`:.1%`, `:.2f`) is abstracted by `toString`; no claim depends on the
  text of a `detail` field.
* The unbounded `while gap > 1` origination loop of `run_month` is
  modelled by fuel recursion (`tierLoopF`) started with enough fuel
  (`tierFuel`): the loop's body refuses as soon as the tier's account
  count reaches the configured maximum, and every origination increases
  that count by one, so `maxOrgs - count + 1` iterations always reach the
  loop's own exit; `tierLoopF_fuel_stable` proves any larger fuel gives
  the same result, i.e. the fuel bound is not an artificial cut-off.
-/

inductive Tier
  | T1
  | T2
  | T3
deriving DecidableEq

inductive LogicType
  | Revolving
  | Fixed
deriving DecidableEq

def Tier.str : Tier → String
  | .T1 => "T1"
  | .T2 => "T2"
  | .T3 => "T3"

/-- `ORG_TIER_MAP` of the source (lender organisation code to tier). -/
def ORG_TIER_MAP : List (ℤ × Tier) :=
  [(11, .T1), (14, .T1), (15, .T1), (52, .T1),
   (12, .T2), (16, .T2), (21, .T2), (23, .T2), (24, .T2), (31, .T2), (41, .T2),
   (22, .T3), (25, .T3), (26, .T3), (51, .T3), (53, .T3), (54, .T3), (99, .T3)]

/-- `ACCT_TYPE_MAP` of the source (account-type code to repayment logic). -/
def ACCT_TYPE_MAP : List (String × LogicType) :=
  [("R1", .Revolving), ("R2", .Revolving), ("R4", .Revolving),
   ("D1", .Fixed), ("R3", .Fixed)]

/-- `DEFAULT_RATES` of the source. -/
def DEFAULT_RATES : List (Tier × ℚ) :=
  [(.T1, 8/100), (.T2, 18/100), (.T3, 24/100)]

/-- `ORG_TIER_MAP.get(org_code, 'T3')` in `Loan.__init__`. -/
def classifyTier (org_code : ℤ) : Tier :=
  (ORG_TIER_MAP.lookup org_code).getD .T3

/-- `ACCT_TYPE_MAP.get(acct_type_code, 'Fixed')` in `Loan.__init__`. -/
def classifyLogic (acct_type : String) : LogicType :=
  (ACCT_TYPE_MAP.lookup acct_type).getD .Fixed

/-- `DEFAULT_RATES.get(tier, 0.24)` in `Loan.__init__`. -/
def defaultRate (tier : Tier) : ℚ :=
  (DEFAULT_RATES.lookup tier).getD (24/100)

structure Loan where
  name : String
  org_code : ℤ
  acct_type_code : String
  tier : Tier
  logic_type : LogicType
  limit : ℚ
  balance : ℚ
  monthly_pay : ℚ
  maturity : ℤ
  rate : ℚ
deriving DecidableEq

/-- `Loan.__init__`: classification of `tier`/`logic_type` from the fixed
tables and the per-tier rate default when `rate` is missing (`None`/NaN,
both modelled by `Option.none`). -/
def mkLoan (name : String) (org_code : ℤ) (acct_type : String)
    (limit balance monthly_pay : ℚ) (maturity_months : ℤ) (rate : Option ℚ) : Loan :=
  let tier := classifyTier org_code
  { name := name
    org_code := org_code
    acct_type_code := acct_type
    tier := tier
    logic_type := classifyLogic acct_type
    limit := limit
    balance := balance
    monthly_pay := monthly_pay
    maturity := maturity_months
    rate :=
      match rate with
      | none => defaultRate tier
      | some r => r }

/-- The market configuration dictionary (`market_config` keys used by
`Market.get_offer`). -/
structure MarketConfig where
  TOXIC_BLOCK : Bool
  PENALTY_RATE : ℚ
  MAX_ORGS_T1 : ℕ
  LIMIT_MUL_T1 : ℚ
  DECAY_T1 : ℚ
  BASE_RATE_T1 : ℚ
  MAX_ORGS_T2 : ℕ
  LIMIT_MUL_T2 : ℚ
  DECAY_T2 : ℚ
  BASE_RATE_T2 : ℚ
  MAX_ORGS_T3 : ℕ
  LIMIT_START_T3 : ℚ
  LIMIT_FLOOR_T3 : ℚ
  DECAY_T3 : ℚ
  BASE_RATE_T3 : ℚ
deriving DecidableEq

def MarketConfig.maxOrgs (cfg : MarketConfig) : Tier → ℕ
  | .T1 => cfg.MAX_ORGS_T1
  | .T2 => cfg.MAX_ORGS_T2
  | .T3 => cfg.MAX_ORGS_T3

/-- The `{'T1': _, 'T2': _, 'T3': _}` dictionary built by `get_counts`. -/
structure Counts where
  t1 : ℕ
  t2 : ℕ
  t3 : ℕ
deriving DecidableEq

def Counts.get (c : Counts) : Tier → ℕ
  | .T1 => c.t1
  | .T2 => c.t2
  | .T3 => c.t3

/-- Python's `round` to an integer: round half to even. -/
def pyRoundInt (x : ℚ) : ℤ :=
  let n := ⌊x⌋
  let frac := x - n
  if frac < 1/2 then n
  else if 1/2 < frac then n + 1
  else if n % 2 = 0 then n else n + 1

/-- `round(x, 2)` of the source. -/
def round2 (x : ℚ) : ℚ := (pyRoundInt (x * 100) : ℚ) / 100

/-- `round(x, 4)` of the source. -/
def round4 (x : ℚ) : ℚ := (pyRoundInt (x * 10000) : ℚ) / 10000

/-- Shared tail of `Market.get_offer`: the multi-lender rate penalty, the
36% rate cap and the final rounding. -/
def offerRound (limit base_rate penalty : ℚ) (count : ℕ) : ℚ × ℚ :=
  let rate := min (base_rate * penalty ^ count) (36/100)
  (round2 limit, round4 rate)

/-- `Market.get_offer(tier, income, current_counts)`. -/
def get_offer (cfg : MarketConfig) (tier : Tier) (income : ℚ)
    (current_counts : Counts) : ℚ × ℚ :=
  if cfg.TOXIC_BLOCK = true ∧ tier = Tier.T1 ∧ 0 < current_counts.t3 then (0, 0)
  else
    let count := current_counts.get tier
    match tier with
    | .T1 =>
      if cfg.MAX_ORGS_T1 ≤ count then (0, 0)
      else
        let base_limit := income * cfg.LIMIT_MUL_T1
        offerRound (base_limit * cfg.DECAY_T1 ^ count) cfg.BASE_RATE_T1 cfg.PENALTY_RATE count
    | .T2 =>
      if cfg.MAX_ORGS_T2 ≤ count then (0, 0)
      else
        let base_limit := income * cfg.LIMIT_MUL_T2
        offerRound (base_limit * cfg.DECAY_T2 ^ count) cfg.BASE_RATE_T2 cfg.PENALTY_RATE count
    | .T3 =>
      if cfg.MAX_ORGS_T3 ≤ count then (0, 0)
      else
        offerRound (max (cfg.LIMIT_START_T3 * cfg.DECAY_T3 ^ count) cfg.LIMIT_FLOOR_T3)
          cfg.BASE_RATE_T3 cfg.PENALTY_RATE count

/-- One entry of `structured_logs` (keys 月份/类别/事件/金额变动/详情). -/
structure LogEntry where
  month : ℕ
  category : String
  event : String
  amount : ℚ
  detail : String
deriving DecidableEq

/-- One entry of `history` (written by `record_stats`). -/
structure Snapshot where
  Month : ℕ
  T1_Debt : ℚ
  T2_Debt : ℚ
  T3_Debt : ℚ
  Total_Debt : ℚ
  Savings : ℚ
  Gap : ℚ
deriving DecidableEq

/-- The mutable state of a `DebtSpiralSimulator` (the `Market` instance is
represented by its configuration). -/
structure SimState where
  income : ℚ
  savings : ℚ
  living_cost : ℚ
  loans : List Loan
  cfg : MarketConfig
  month : ℕ
  is_dead : Bool
  death_reason : String
  structured_logs : List LogEntry
  history : List Snapshot
deriving DecidableEq

/-- `DebtSpiralSimulator.__init__`. -/
def initSimulator (income savings living_cost : ℚ) (initial_loans : List Loan)
    (cfg : MarketConfig) : SimState :=
  { income := income
    savings := savings
    living_cost := living_cost
    loans := initial_loans
    cfg := cfg
    month := 0
    is_dead := false
    death_reason := ""
    structured_logs := []
    history := [] }

/-- Number of loans of tier `t` with positive balance (one tier of
`get_counts`). -/
def tierCount (loans : List Loan) (t : Tier) : ℕ :=
  (loans.filter fun l => decide (0 < l.balance) && decide (l.tier = t)).length

/-- `DebtSpiralSimulator.get_counts`. -/
def get_counts (loans : List Loan) : Counts :=
  { t1 := tierCount loans .T1
    t2 := tierCount loans .T2
    t3 := tierCount loans .T3 }

/-- Total balance held in tier `t` (used by `record_stats`). -/
def tier_debt (loans : List Loan) (t : Tier) : ℚ :=
  ((loans.filter fun l => decide (l.tier = t)).map Loan.balance).sum

/-- `DebtSpiralSimulator.record_stats`. -/
def record_stats (st : SimState) (gap : ℚ) : SimState :=
  let t1_debt := tier_debt st.loans .T1
  let t2_debt := tier_debt st.loans .T2
  let t3_debt := tier_debt st.loans .T3
  { st with history := st.history ++
      [{ Month := st.month
         T1_Debt := t1_debt
         T2_Debt := t2_debt
         T3_Debt := t3_debt
         Total_Debt := t1_debt + t2_debt + t3_debt
         Savings := st.savings
         Gap := gap }] }

/-- Sum of `monthly_pay` over loans with positive balance (the repayment
loop of `run_month`). -/
def totalPayment (loans : List Loan) : ℚ :=
  ((loans.filter fun l => decide (0 < l.balance)).map Loan.monthly_pay).sum

/-- The `loan.maturity -= 1` effect of the repayment loop of `run_month`
(applied to loans with positive balance). -/
def decrementMaturities (loans : List Loan) : List Loan :=
  loans.map fun l => if 0 < l.balance then { l with maturity := l.maturity - 1 } else l

/-- The loans hit by the maturity event of `run_month` (positive balance,
counter at or below zero, checked after the decrement). -/
def maturedLoans (loans : List Loan) : List Loan :=
  loans.filter fun l => decide (0 < l.balance) && decide (l.maturity ≤ 0)

/-- `matured_principal` of `run_month`. -/
def maturedPrincipal (loans : List Loan) : ℚ :=
  ((maturedLoans loans).map Loan.balance).sum

/-- The `loan.balance = 0` effect of the maturity event of `run_month`. -/
def zeroMatured (loans : List Loan) : List Loan :=
  loans.map fun l => if 0 < l.balance ∧ l.maturity ≤ 0 then { l with balance := 0 } else l

/-- `net_flow = income - total_outflow` as computed by `run_month` on the
state at the start of the month. -/
def net_flow (s : SimState) : ℚ :=
  let total_outflow := s.living_cost + totalPayment s.loans
  let mp := maturedPrincipal (decrementMaturities s.loans)
  let total_outflow := if 0 < mp then total_outflow + mp else total_outflow
  s.income - total_outflow

/-- The revolving self-draw loop of `run_month` (`以贷养贷`): first-fit over
the loan list, drawing `min(headroom, gap)` from every `Revolving` loan
with `balance < limit`, breaking as soon as `gap < 1` after a draw.
Returns the updated loans, the remaining gap and the log entries. -/
def revolvingDraw (month : ℕ) (gap : ℚ) :
    List Loan → List Loan × ℚ × List LogEntry
  | [] => ([], gap, [])
  | l :: rest =>
    if l.logic_type = LogicType.Revolving ∧ l.balance < l.limit then
      let draw := min (l.limit - l.balance) gap
      let l' := { l with balance := l.balance + draw }
      let e : LogEntry := ⟨month, "填坑", "以贷养贷", draw, "从 " ++ l.name ++ " 提现"⟩
      if gap - draw < 1 then (l' :: rest, gap - draw, [e])
      else
        let r := revolvingDraw month (gap - draw) rest
        (l' :: r.1, r.2.1, e :: r.2.2)
    else
      let r := revolvingDraw month gap rest
      (l :: r.1, r.2.1, r.2.2)

/-- The revolving self-draw loop as the claim describes it: identical to
`revolvingDraw` except that it stops as soon as the remaining gap is `≤ 1`
(the code's break condition is `gap < 1`). -/
def revolvingDrawClaimed (month : ℕ) (gap : ℚ) :
    List Loan → List Loan × ℚ × List LogEntry
  | [] => ([], gap, [])
  | l :: rest =>
    if l.logic_type = LogicType.Revolving ∧ l.balance < l.limit then
      let draw := min (l.limit - l.balance) gap
      let l' := { l with balance := l.balance + draw }
      let e : LogEntry := ⟨month, "填坑", "以贷养贷", draw, "从 " ++ l.name ++ " 提现"⟩
      if gap - draw ≤ 1 then (l' :: rest, gap - draw, [e])
      else
        let r := revolvingDrawClaimed month (gap - draw) rest
        (l' :: r.1, r.2.1, e :: r.2.2)
    else
      let r := revolvingDrawClaimed month gap rest
      (l :: r.1, r.2.1, r.2.2)

/-- Org code auto-assigned to a new loan of the given tier
(`T1->11, T2->24, T3->51` in `run_month`). -/
def tierOrgCode : Tier → ℤ
  | .T1 => 11
  | .T2 => 24
  | .T3 => 51

/-- The new loan built by one origination of the `while gap > 1` loop of
`run_month`: name `新{source}_{month}`, auto-assigned org code, account
type `R1`, credit limit equal to the offered limit, balance drawn at
`min(limit, gap)`, monthly payment 3% of the draw, 12-month maturity, and
the offered rate. -/
def originatedLoan (source : Tier) (st : SimState) (offer : ℚ × ℚ) (gap : ℚ) : Loan :=
  mkLoan ("新" ++ source.str ++ "_" ++ toString st.month) (tierOrgCode source) "R1"
    offer.1 (min offer.1 gap) (min offer.1 gap * (3/100)) 12 (some offer.2)

/-- One origination step of the `while gap > 1` loop of `run_month`:
append the new loan, log the success, and reduce the gap by the draw. -/
def originate (source : Tier) (st : SimState) (offer : ℚ × ℚ) (gap : ℚ) : SimState × ℚ :=
  let draw := min offer.1 gap
  ({ st with
      loans := st.loans ++ [originatedLoan source st offer gap]
      structured_logs := st.structured_logs ++
        [⟨st.month, "借新", "申请成功", draw, source.str ++ " | 息" ++ toString offer.2⟩] },
   gap - draw)

/-- Fuel-indexed unfolding of the `while gap > 1` origination loop of
`run_month` for one funding tier: request an offer at the current counts;
on refusal (`limit <= 0`) log the toxic-block rejection if applicable and
stop; otherwise originate a new Revolving loan of the requested tier drawn
at `min(limit, gap)` and repeat. -/
def tierLoopF : ℕ → Tier → SimState → ℚ → SimState × ℚ
  | 0, _, st, gap => (st, gap)
  | fuel + 1, source, st, gap =>
    if 1 < gap then
      let counts := get_counts st.loans
      let offer := get_offer st.cfg source st.income counts
      if offer.1 ≤ 0 then
        if source = Tier.T1 ∧ 0 < counts.t3 ∧ st.cfg.TOXIC_BLOCK = true then
          ({ st with structured_logs := st.structured_logs ++
              [⟨st.month, "被拒", "T1风控", 0, "因持有T3被银行拒贷(污染效应)"⟩] }, gap)
        else (st, gap)
      else
        let p := originate source st offer gap
        tierLoopF fuel source p.1 p.2
    else (st, gap)

/-- Fuel that always suffices for `tierLoopF` to reach the loop's own exit
(see the module docstring and `tierLoopF_fuel_stable`). -/
def tierFuel (cfg : MarketConfig) (source : Tier) (loans : List Loan) : ℕ :=
  (cfg.maxOrgs source - tierCount loans source) + 1

/-- The `while gap > 1` origination loop of `run_month` for one tier. -/
def tierLoop (source : Tier) (st : SimState) (gap : ℚ) : SimState × ℚ :=
  tierLoopF (tierFuel st.cfg source st.loans) source st gap

/-- The `for source in ['T1','T2','T3']` loop of `run_month`, with its
`if gap < 1: break` check before each tier. -/
def fillTiers (st : SimState) (gap : ℚ) : SimState × ℚ :=
  if gap < 1 then (st, gap)
  else
    let p1 := tierLoop .T1 st gap
    if p1.2 < 1 then p1
    else
      let p2 := tierLoop .T2 p1.1 p1.2
      if p2.2 < 1 then p2
      else tierLoop .T3 p2.1 p2.2

/-- The tier loops chained without the redundant per-tier `gap < 1`
pre-checks (each `tierLoop` already refuses to run unless `gap > 1`);
used by the amended restatement of the gap-filling pipeline. -/
def tierChain (st : SimState) (gap : ℚ) : SimState × ℚ :=
  let p1 := tierLoop .T1 st gap
  let p2 := tierLoop .T2 p1.1 p1.2
  tierLoop .T3 p2.1 p2.2

/-- The savings stage of the deficit path of `run_month`. -/
def drawSavings : SimState × ℚ → SimState × ℚ
  | (st, gap) =>
    if 0 < st.savings then
      let used := min st.savings gap
      ({ st with
          savings := st.savings - used
          structured_logs := st.structured_logs ++
            [⟨st.month, "填坑", "消耗存款", used, ""⟩] }, gap - used)
    else (st, gap)

/-- The revolving stage of the deficit path of `run_month` (guarded by
`if gap > 1`). -/
def drawRevolving : SimState × ℚ → SimState × ℚ
  | (st, gap) =>
    if 1 < gap then
      let r := revolvingDraw st.month gap st.loans
      ({ st with loans := r.1, structured_logs := st.structured_logs ++ r.2.2 }, r.2.1)
    else (st, gap)

/-- `drawRevolving` with the claim's `≤ 1` stopping rule substituted. -/
def drawRevolvingClaimed : SimState × ℚ → SimState × ℚ
  | (st, gap) =>
    if 1 < gap then
      let r := revolvingDrawClaimed st.month gap st.loans
      ({ st with loans := r.1, structured_logs := st.structured_logs ++ r.2.2 }, r.2.1)
    else (st, gap)

/-- The new-borrowing stage of the deficit path of `run_month` (guarded by
`if gap > 1`). -/
def drawNewLoans : SimState × ℚ → SimState × ℚ
  | (st, gap) => if 1 < gap then fillTiers st gap else (st, gap)

/-- The new-borrowing stage written as the plain `T1 → T2 → T3` chain. -/
def drawNewLoansAmended : SimState × ℚ → SimState × ℚ
  | (st, gap) => if 1 < gap then tierChain st gap else (st, gap)

/-- The final `record_stats` and death check of `run_month`. -/
def finishMonth : SimState × ℚ → SimState
  | (st, gap) =>
    let st := record_stats st gap
    if 1 < gap then
      { st with is_dead := true
                death_reason := "资金链断裂 (缺口 " ++ toString gap ++ ")" }
    else st

/-- `DebtSpiralSimulator.run_month`. -/
def run_month (s : SimState) : SimState :=
  let month := s.month + 1
  let active := s.loans.filter fun l => decide (0 < l.balance)
  let total_payment := totalPayment s.loans
  let loans1 := decrementMaturities s.loans
  let matured := maturedLoans loans1
  let matured_principal := maturedPrincipal loans1
  let loans2 := zeroMatured loans1
  let logsA := s.structured_logs ++
    [⟨month, "支出", "生活费", -s.living_cost, ""⟩,
     ⟨month, "支出", "偿还月供", -total_payment, "账户数: " ++ toString active.length⟩]
  let logsB :=
    if 0 < matured_principal then
      logsA ++ [⟨month, "冲击", "本金到期", -matured_principal,
        "项目: " ++ String.intercalate "," (matured.map fun l => l.name ++ "(" ++ l.tier.str ++ ")")⟩]
    else logsA
  let nf := net_flow s
  let logsC := logsB ++ [⟨month, "收入", "工资", s.income, ""⟩]
  let st0 : SimState := { s with month := month, loans := loans2, structured_logs := logsC }
  if 0 ≤ nf then
    finishMonth ({ st0 with
      savings := st0.savings + nf
      structured_logs := st0.structured_logs ++ [⟨month, "储蓄", "存入", nf, ""⟩] }, 0)
  else
    let gap := |nf|
    let st1 : SimState := { st0 with structured_logs := st0.structured_logs ++
      [⟨month, "预警", "缺口", -gap, "入不敷出"⟩] }
    finishMonth (drawNewLoans (drawRevolving (drawSavings (st1, gap))))

/-- `run_month` exactly as claim C1 describes it: the only change is that
the revolving stage stops once the remaining gap is `≤ 1`. -/
def run_month_claimed (s : SimState) : SimState :=
  let month := s.month + 1
  let active := s.loans.filter fun l => decide (0 < l.balance)
  let total_payment := totalPayment s.loans
  let loans1 := decrementMaturities s.loans
  let matured := maturedLoans loans1
  let matured_principal := maturedPrincipal loans1
  let loans2 := zeroMatured loans1
  let logsA := s.structured_logs ++
    [⟨month, "支出", "生活费", -s.living_cost, ""⟩,
     ⟨month, "支出", "偿还月供", -total_payment, "账户数: " ++ toString active.length⟩]
  let logsB :=
    if 0 < matured_principal then
      logsA ++ [⟨month, "冲击", "本金到期", -matured_principal,
        "项目: " ++ String.intercalate "," (matured.map fun l => l.name ++ "(" ++ l.tier.str ++ ")")⟩]
    else logsA
  let nf := net_flow s
  let logsC := logsB ++ [⟨month, "收入", "工资", s.income, ""⟩]
  let st0 : SimState := { s with month := month, loans := loans2, structured_logs := logsC }
  if 0 ≤ nf then
    finishMonth ({ st0 with
      savings := st0.savings + nf
      structured_logs := st0.structured_logs ++ [⟨month, "储蓄", "存入", nf, ""⟩] }, 0)
  else
    let gap := |nf|
    let st1 : SimState := { st0 with structured_logs := st0.structured_logs ++
      [⟨month, "预警", "缺口", -gap, "入不敷出"⟩] }
    finishMonth (drawNewLoans (drawRevolvingClaimed (drawSavings (st1, gap))))

/-- `run_month` as the amended claim C1 describes it: savings stage, then
the revolving stage with the code's `< 1` stopping rule, then new
borrowing strictly in the order T1, T2, T3 with origination ceasing once
the gap is `≤ 1` (written as the plain tier chain). -/
def run_month_amended (s : SimState) : SimState :=
  let month := s.month + 1
  let active := s.loans.filter fun l => decide (0 < l.balance)
  let total_payment := totalPayment s.loans
  let loans1 := decrementMaturities s.loans
  let matured := maturedLoans loans1
  let matured_principal := maturedPrincipal loans1
  let loans2 := zeroMatured loans1
  let logsA := s.structured_logs ++
    [⟨month, "支出", "生活费", -s.living_cost, ""⟩,
     ⟨month, "支出", "偿还月供", -total_payment, "账户数: " ++ toString active.length⟩]
  let logsB :=
    if 0 < matured_principal then
      logsA ++ [⟨month, "冲击", "本金到期", -matured_principal,
        "项目: " ++ String.intercalate "," (matured.map fun l => l.name ++ "(" ++ l.tier.str ++ ")")⟩]
    else logsA
  let nf := net_flow s
  let logsC := logsB ++ [⟨month, "收入", "工资", s.income, ""⟩]
  let st0 : SimState := { s with month := month, loans := loans2, structured_logs := logsC }
  if 0 ≤ nf then
    finishMonth ({ st0 with
      savings := st0.savings + nf
      structured_logs := st0.structured_logs ++ [⟨month, "储蓄", "存入", nf, ""⟩] }, 0)
  else
    let gap := |nf|
    let st1 : SimState := { st0 with structured_logs := st0.structured_logs ++
      [⟨month, "预警", "缺口", -gap, "入不敷出"⟩] }
    finishMonth (drawNewLoansAmended (drawRevolving (drawSavings (st1, gap))))

/-- Iterating `run_month` (the driver loop of the app, without its
`is_dead` early exit). -/
def runMonths : ℕ → SimState → SimState
  | 0, s => s
  | n + 1, s => runMonths n (run_month s)

/-- A market configuration with no lending capacity at all
(`MAX_ORGS = 0` for every tier) and the toxic block disabled. -/
def cfgNone : MarketConfig :=
  { TOXIC_BLOCK := false
    PENALTY_RATE := 1
    MAX_ORGS_T1 := 0
    LIMIT_MUL_T1 := 1
    DECAY_T1 := 1
    BASE_RATE_T1 := 8/100
    MAX_ORGS_T2 := 0
    LIMIT_MUL_T2 := 1
    DECAY_T2 := 1
    BASE_RATE_T2 := 18/100
    MAX_ORGS_T3 := 0
    LIMIT_START_T3 := 0
    LIMIT_FLOOR_T3 := 0
    DECAY_T3 := 1
    BASE_RATE_T3 := 24/100 }

/-- A configuration with the toxic block enabled (for the C4 witness). -/
def cfgToxic : MarketConfig :=
  { cfgNone with TOXIC_BLOCK := true, MAX_ORGS_T1 := 2, LIMIT_MUL_T1 := 12 }

/-- A configuration where T1 has no capacity but T2 lends freely
(for the C5 and C10 witnesses). -/
def cfgT2open : MarketConfig :=
  { cfgNone with MAX_ORGS_T2 := 5, LIMIT_MUL_T2 := 1 }

/-- C1 scenario, loan A: Revolving, limit 10, balance 8 (headroom 2). -/
def c1LoanA : Loan :=
  { name := "A", org_code := 11, acct_type_code := "R1", tier := .T1,
    logic_type := .Revolving, limit := 10, balance := 8, monthly_pay := 0,
    maturity := 10, rate := 1/10 }

/-- C1 scenario, loan B: Revolving, limit 10, balance 5 (headroom 5). -/
def c1LoanB : Loan :=
  { name := "B", org_code := 11, acct_type_code := "R1", tier := .T1,
    logic_type := .Revolving, limit := 10, balance := 5, monthly_pay := 0,
    maturity := 10, rate := 1/10 }

/-- C1 scenario: income 10, living cost 13, no savings, so the first month
has a deficit gap of exactly 3; loan A's draw of 2 leaves the gap at
exactly 1, after which the code still draws 1 from loan B. -/
def c1Start : SimState := initSimulator 10 0 13 [c1LoanA, c1LoanB] cfgNone

/-- C2 scenario, loan A: Revolving, matures after month 1. -/
def c2LoanA : Loan :=
  { name := "A", org_code := 11, acct_type_code := "R1", tier := .T1,
    logic_type := .Revolving, limit := 10, balance := 4, monthly_pay := 1,
    maturity := 1, rate := 1/10 }

/-- C2 scenario, loan B: Fixed, large principal maturing in month 2. -/
def c2LoanB : Loan :=
  { name := "B", org_code := 11, acct_type_code := "D1", tier := .T1,
    logic_type := .Fixed, limit := 0, balance := 50, monthly_pay := 1,
    maturity := 2, rate := 1/10 }

/-- C2 scenario: month 1 matures loan A (surplus month: net 9, saved);
month 2 matures loan B, creating a deficit (gap 36) that savings (9) only
partly cover, after which the revolving stage draws 10 onto the
already-matured Revolving loan A. -/
def c2Start : SimState := initSimulator 20 0 5 [c2LoanA, c2LoanB] cfgNone

/-- After two months of the C2 scenario the simulator is dead
(unmet gap 17 with no market capacity). -/
def c6Dead : SimState := runMonths 2 c2Start

/-- A surplus scenario (the spec's surplus example scaled down by 1000 to
keep literals small): one T3 Revolving loan with payment 1. -/
def c3Loan : Loan :=
  { name := "T3L", org_code := 51, acct_type_code := "R1", tier := .T3,
    logic_type := .Revolving, limit := 20, balance := 19, monthly_pay := 1,
    maturity := 12, rate := 24/100 }

/-- C3 witness state (the first month has `net_flow = 8 ≥ 0`). -/
def c3Start : SimState := initSimulator 12 0 3 [c3Loan] cfgNone

/-- C5/C10 witness state: empty portfolio, T1 closed, T2 open. -/
def c5St : SimState := initSimulator 10 0 0 [] cfgT2open

/-- C7 scenario: constructor inputs that the spec calls invalid
(negative income). -/
def c7Bad : SimState := initSimulator (-1) 0 0 [] cfgNone

/-- C9 witness state. -/
def c9St : SimState := initSimulator 5 6 7 [] cfgNone

/-- C10 witness loan (positive balance). -/
def c10Loan : Loan :=
  { name := "X", org_code := 24, acct_type_code := "R1", tier := .T2,
    logic_type := .Revolving, limit := 5, balance := 1, monthly_pay := 0,
    maturity := 3, rate := 1/10 }

/-- A Fixed loan that already has zero balance (for the C2 witness). -/
def c2ZeroLoan : Loan :=
  { name := "F", org_code := 11, acct_type_code := "D1", tier := .T1,
    logic_type := .Fixed, limit := 0, balance := 0, monthly_pay := 1,
    maturity := 2, rate := 1/10 }

/-- C2 witness state: deficit months around a zero-balance Fixed loan. -/
def c2ZeroStart : SimState := initSimulator 3 0 5 [c2ZeroLoan] cfgNone

set_option maxRecDepth 4000

/-- `List.lookup` misses every key not in the table. -/
theorem lookup_eq_none_of_not_mem {α β : Type} [DecidableEq α] (l : List (α × β)) (a : α)
    (h : a ∉ l.map Prod.fst) : l.lookup a = none := by
  induction l with
  | nil => rfl
  | cons p t ih =>
    simp only [List.map_cons, List.mem_cons] at h
    push_neg at h
    have hne : (a == p.1) = false := by
      simp only [beq_eq_false_iff_ne, ne_eq]
      exact h.1
    simp only [List.lookup, hne]
    exact ih h.2

/-- The hard-coded org codes of newly originated loans classify back to
the tier they were issued for. -/
theorem classifyTier_tierOrgCode (t : Tier) : classifyTier (tierOrgCode t) = t := by
  cases t <;> decide

theorem classifyLogic_R1 : classifyLogic "R1" = LogicType.Revolving := by decide

theorem get_counts_get (ls : List Loan) (t : Tier) :
    (get_counts ls).get t = tierCount ls t := by
  cases t <;> rfl

/-- Appending one loan changes the per-tier active count in the obvious
way. -/
theorem tierCount_append (ls : List Loan) (l : Loan) (t : Tier) :
    tierCount (ls ++ [l]) t =
      tierCount ls t + (if 0 < l.balance ∧ l.tier = t then 1 else 0) := by
  simp only [tierCount, List.filter_append, List.length_append]
  congr 1
  by_cases h1 : 0 < l.balance <;> by_cases h2 : l.tier = t <;>
    simp [List.filter_cons, h1, h2]

/-- A positive offered limit implies the requested tier's active count is
still below the configured maximum (every refusal branch of `get_offer`
returns limit 0). -/
theorem get_offer_pos_count_lt (cfg : MarketConfig) (t : Tier) (income : ℚ) (c : Counts)
    (h : 0 < (get_offer cfg t income c).1) : c.get t < cfg.maxOrgs t := by
  by_cases htox : cfg.TOXIC_BLOCK = true ∧ t = Tier.T1 ∧ 0 < c.t3
  · rw [get_offer, if_pos htox] at h
    norm_num at h
  · rw [get_offer, if_neg htox] at h
    cases t with
    | T1 =>
      by_cases hm : cfg.MAX_ORGS_T1 ≤ c.get Tier.T1
      · simp only [hm, if_true] at h
        norm_num at h
      · simpa [MarketConfig.maxOrgs] using Nat.lt_of_not_le hm
    | T2 =>
      by_cases hm : cfg.MAX_ORGS_T2 ≤ c.get Tier.T2
      · simp only [hm, if_true] at h
        norm_num at h
      · simpa [MarketConfig.maxOrgs] using Nat.lt_of_not_le hm
    | T3 =>
      by_cases hm : cfg.MAX_ORGS_T3 ≤ c.get Tier.T3
      · simp only [hm, if_true] at h
        norm_num at h
      · simpa [MarketConfig.maxOrgs] using Nat.lt_of_not_le hm

/-- Structural properties of a newly originated loan. -/
theorem originatedLoan_props (source : Tier) (st : SimState) (offer : ℚ × ℚ) (gap : ℚ)
    (h1 : 0 < offer.1) (h2 : 1 < gap) :
    (originatedLoan source st offer gap).tier = source ∧
    (originatedLoan source st offer gap).logic_type = LogicType.Revolving ∧
    (originatedLoan source st offer gap).org_code = tierOrgCode source ∧
    (originatedLoan source st offer gap).acct_type_code = "R1" ∧
    0 < (originatedLoan source st offer gap).balance ∧
    (originatedLoan source st offer gap).balance ≤ (originatedLoan source st offer gap).limit := by
  refine ⟨?_, ?_, rfl, rfl, ?_, ?_⟩
  · exact classifyTier_tierOrgCode source
  · exact classifyLogic_R1
  · exact lt_min h1 (by linarith)
  · exact min_le_left _ _

/-- Field bookkeeping of one origination step. -/
theorem originate_fields (source : Tier) (st : SimState) (offer : ℚ × ℚ) (gap : ℚ) :
    (originate source st offer gap).1.loans = st.loans ++ [originatedLoan source st offer gap] ∧
    (originate source st offer gap).1.cfg = st.cfg ∧
    (originate source st offer gap).1.income = st.income ∧
    (originate source st offer gap).1.savings = st.savings ∧
    (originate source st offer gap).1.month = st.month ∧
    (originate source st offer gap).1.history = st.history ∧
    (originate source st offer gap).1.is_dead = st.is_dead ∧
    (originate source st offer gap).2 = gap - min offer.1 gap :=
  ⟨rfl, rfl, rfl, rfl, rfl, rfl, rfl, rfl⟩

/-- `tierLoopF` with zero fuel. -/
theorem tierLoopF_zero (source : Tier) (st : SimState) (gap : ℚ) :
    tierLoopF 0 source st gap = (st, gap) := rfl

/-- `tierLoopF` does nothing when the gap is at most 1. -/
theorem tierLoopF_not_gt (f : ℕ) (source : Tier) (st : SimState) (gap : ℚ)
    (h : ¬ 1 < gap) : tierLoopF f source st gap = (st, gap) := by
  cases f with
  | zero => rfl
  | succ f => simp [tierLoopF, h]

/-- `tierLoopF` on a refused offer: log the toxic-block rejection if
applicable and stop. -/
theorem tierLoopF_refused (f : ℕ) (source : Tier) (st : SimState) (gap : ℚ)
    (hgap : 1 < gap)
    (hoff : (get_offer st.cfg source st.income (get_counts st.loans)).1 ≤ 0) :
    tierLoopF (f + 1) source st gap =
      (if source = Tier.T1 ∧ 0 < (get_counts st.loans).t3 ∧ st.cfg.TOXIC_BLOCK = true then
        ({ st with structured_logs := st.structured_logs ++
            [⟨st.month, "被拒", "T1风控", 0, "因持有T3被银行拒贷(污染效应)"⟩] }, gap)
      else (st, gap)) := by
  simp [tierLoopF, hgap, hoff]

/-- `tierLoopF` on an accepted offer: one origination step, then recurse. -/
theorem tierLoopF_accepted (f : ℕ) (source : Tier) (st : SimState) (gap : ℚ)
    (hgap : 1 < gap)
    (hoff : ¬ (get_offer st.cfg source st.income (get_counts st.loans)).1 ≤ 0) :
    tierLoopF (f + 1) source st gap =
      tierLoopF f source
        (originate source st (get_offer st.cfg source st.income (get_counts st.loans)) gap).1
        (originate source st (get_offer st.cfg source st.income (get_counts st.loans)) gap).2 := by
  simp [tierLoopF, hgap, hoff]

/-- One origination increases the active count of the requested tier by
exactly one. -/
theorem originate_tierCount (source : Tier) (st : SimState) (offer : ℚ × ℚ) (gap : ℚ)
    (h1 : 0 < offer.1) (h2 : 1 < gap) :
    tierCount (originate source st offer gap).1.loans source =
      tierCount st.loans source + 1 := by
  have hp := originatedLoan_props source st offer gap h1 h2
  rw [(originate_fields source st offer gap).1, tierCount_append]
  rw [if_pos ⟨hp.2.2.2.2.1, hp.1⟩]

/-- Everything `tierLoopF` does to the state is appending loans of the
requested tier (each Revolving, positive, within its limit) and appending
log entries; all other fields are untouched. -/
theorem tierLoopF_spec (fuel : ℕ) (source : Tier) (st : SimState) (gap : ℚ) :
    ∃ new : List Loan,
      (tierLoopF fuel source st gap).1.loans = st.loans ++ new ∧
      (tierLoopF fuel source st gap).1.cfg = st.cfg ∧
      (tierLoopF fuel source st gap).1.income = st.income ∧
      (tierLoopF fuel source st gap).1.savings = st.savings ∧
      (tierLoopF fuel source st gap).1.month = st.month ∧
      (tierLoopF fuel source st gap).1.history = st.history ∧
      (tierLoopF fuel source st gap).1.is_dead = st.is_dead ∧
      ∀ l ∈ new, l.tier = source ∧ l.logic_type = LogicType.Revolving ∧
        l.org_code = tierOrgCode source ∧ l.acct_type_code = "R1" ∧
        0 < l.balance ∧ l.balance ≤ l.limit := by
  induction fuel generalizing st gap with
  | zero =>
    exact ⟨[], by simp [tierLoopF_zero], rfl, rfl, rfl, rfl, rfl, rfl, by simp⟩
  | succ f ih =>
    by_cases hgap : 1 < gap
    · by_cases hoff : (get_offer st.cfg source st.income (get_counts st.loans)).1 ≤ 0
      · rw [tierLoopF_refused f source st gap hgap hoff]
        split_ifs with htox
        · exact ⟨[], by simp, rfl, rfl, rfl, rfl, rfl, rfl, by simp⟩
        · exact ⟨[], by simp, rfl, rfl, rfl, rfl, rfl, rfl, by simp⟩
      · rw [tierLoopF_accepted f source st gap hgap hoff]
        obtain ⟨new', h1, h2, h3, h4, h5, h6, h7, h8⟩ :=
          ih (originate source st (get_offer st.cfg source st.income (get_counts st.loans)) gap).1
             (originate source st (get_offer st.cfg source st.income (get_counts st.loans)) gap).2
        have hof := originate_fields source st
          (get_offer st.cfg source st.income (get_counts st.loans)) gap
        refine ⟨originatedLoan source st
            (get_offer st.cfg source st.income (get_counts st.loans)) gap :: new',
          ?_, ?_, ?_, ?_, ?_, ?_, ?_, ?_⟩
        · rw [h1, hof.1, List.append_assoc, List.singleton_append]
        · rw [h2, hof.2.1]
        · rw [h3, hof.2.2.1]
        · rw [h4, hof.2.2.2.1]
        · rw [h5, hof.2.2.2.2.1]
        · rw [h6, hof.2.2.2.2.2.1]
        · rw [h7, hof.2.2.2.2.2.2.1]
        · intro l hl
          rcases List.mem_cons.mp hl with hl | hl'
          · subst hl
            exact originatedLoan_props source st _ gap (lt_of_not_le hoff) hgap
          · exact h8 l hl'
    · rw [tierLoopF_not_gt _ _ _ _ hgap]
      exact ⟨[], by simp, rfl, rfl, rfl, rfl, rfl, rfl, by simp⟩

/-- Above the `tierFuel` bound the fuel argument is irrelevant: the loop
always reaches its own exit before running out, so the fuel encoding is
not an artificial cut-off of the Python `while` loop. -/
theorem tierLoopF_fuel_irrel (f1 : ℕ) : ∀ (f2 : ℕ) (source : Tier) (st : SimState) (gap : ℚ),
    tierFuel st.cfg source st.loans ≤ f1 → tierFuel st.cfg source st.loans ≤ f2 →
    tierLoopF f1 source st gap = tierLoopF f2 source st gap := by
  induction f1 with
  | zero =>
    intro f2 source st gap h1 h2
    simp [tierFuel] at h1
  | succ f ih =>
    intro f2 source st gap h1 h2
    cases f2 with
    | zero => simp [tierFuel] at h2
    | succ f2 =>
      by_cases hgap : 1 < gap
      · by_cases hoff : (get_offer st.cfg source st.income (get_counts st.loans)).1 ≤ 0
        · rw [tierLoopF_refused f source st gap hgap hoff,
            tierLoopF_refused f2 source st gap hgap hoff]
        · rw [tierLoopF_accepted f source st gap hgap hoff,
            tierLoopF_accepted f2 source st gap hgap hoff]
          have hcnt := originate_tierCount source st
            (get_offer st.cfg source st.income (get_counts st.loans)) gap
            (lt_of_not_le hoff) hgap
          have hlt : tierCount st.loans source < st.cfg.maxOrgs source := by
            have := get_offer_pos_count_lt st.cfg source st.income (get_counts st.loans)
              (lt_of_not_le hoff)
            rwa [get_counts_get] at this
          have hcfg := (originate_fields source st
            (get_offer st.cfg source st.income (get_counts st.loans)) gap).2.1
          apply ih
          · simp only [tierFuel, hcfg, hcnt] at h1 ⊢
            omega
          · simp only [tierFuel, hcfg, hcnt] at h2 ⊢
            omega
      · rw [tierLoopF_not_gt _ _ _ _ hgap, tierLoopF_not_gt _ _ _ _ hgap]

/-- Any fuel at least `tierFuel` computes exactly `tierLoop`. -/
theorem tierLoopF_fuel_stable (f : ℕ) (source : Tier) (st : SimState) (gap : ℚ)
    (hf : tierFuel st.cfg source st.loans ≤ f) :
    tierLoopF f source st gap = tierLoop source st gap :=
  tierLoopF_fuel_irrel f (tierFuel st.cfg source st.loans) source st gap hf (le_refl _)

/-- If `tierLoopF` (with sufficient fuel) stops with the gap still above
1, then the offer for its tier at the final state is refused
(non-positive limit): the loop exhausted the tier. -/
theorem tierLoopF_exit (f : ℕ) : ∀ (source : Tier) (st : SimState) (gap : ℚ),
    tierFuel st.cfg source st.loans ≤ f →
    1 < (tierLoopF f source st gap).2 →
    (get_offer (tierLoopF f source st gap).1.cfg source (tierLoopF f source st gap).1.income
      (get_counts (tierLoopF f source st gap).1.loans)).1 ≤ 0 := by
  induction f with
  | zero =>
    intro source st gap h1 _
    simp [tierFuel] at h1
  | succ f ih =>
    intro source st gap hf hg
    by_cases hgap : 1 < gap
    · by_cases hoff : (get_offer st.cfg source st.income (get_counts st.loans)).1 ≤ 0
      · rw [tierLoopF_refused f source st gap hgap hoff] at hg ⊢
        split_ifs with htox
        · simpa using hoff
        · simpa using hoff
      · rw [tierLoopF_accepted f source st gap hgap hoff] at hg ⊢
        have hcnt := originate_tierCount source st
          (get_offer st.cfg source st.income (get_counts st.loans)) gap
          (lt_of_not_le hoff) hgap
        have hlt : tierCount st.loans source < st.cfg.maxOrgs source := by
          have := get_offer_pos_count_lt st.cfg source st.income (get_counts st.loans)
            (lt_of_not_le hoff)
          rwa [get_counts_get] at this
        have hcfg := (originate_fields source st
          (get_offer st.cfg source st.income (get_counts st.loans)) gap).2.1
        apply ih
        · simp only [tierFuel, hcfg, hcnt] at hf ⊢
          omega
        · exact hg
    · rw [tierLoopF_not_gt _ _ _ _ hgap] at hg
      exact absurd hg hgap

theorem tierLoop_not_gt (source : Tier) (st : SimState) (gap : ℚ)
    (h : ¬ 1 < gap) : tierLoop source st gap = (st, gap) :=
  tierLoopF_not_gt _ _ _ _ h

/-- `tierLoopF_spec` at the fuel used by `tierLoop`. -/
theorem tierLoop_spec (source : Tier) (st : SimState) (gap : ℚ) :
    ∃ new : List Loan,
      (tierLoop source st gap).1.loans = st.loans ++ new ∧
      (tierLoop source st gap).1.cfg = st.cfg ∧
      (tierLoop source st gap).1.income = st.income ∧
      (tierLoop source st gap).1.savings = st.savings ∧
      (tierLoop source st gap).1.month = st.month ∧
      (tierLoop source st gap).1.history = st.history ∧
      (tierLoop source st gap).1.is_dead = st.is_dead ∧
      ∀ l ∈ new, l.tier = source ∧ l.logic_type = LogicType.Revolving ∧
        l.org_code = tierOrgCode source ∧ l.acct_type_code = "R1" ∧
        0 < l.balance ∧ l.balance ≤ l.limit :=
  tierLoopF_spec (tierFuel st.cfg source st.loans) source st gap

/-- If the origination loop for a tier stops with the gap still above 1,
the offer for that tier at the stopping state is refused. -/
theorem tierLoop_exit (source : Tier) (st : SimState) (gap : ℚ)
    (hg : 1 < (tierLoop source st gap).2) :
    (get_offer (tierLoop source st gap).1.cfg source (tierLoop source st gap).1.income
      (get_counts (tierLoop source st gap).1.loans)).1 ≤ 0 :=
  tierLoopF_exit (tierFuel st.cfg source st.loans) source st gap (le_refl _) hg

/-- The per-tier `gap < 1` pre-checks of the `for` loop are redundant:
the whole new-borrowing pass equals the plain `T1 → T2 → T3` chain. -/
theorem fillTiers_eq_tierChain (st : SimState) (gap : ℚ) :
    fillTiers st gap = tierChain st gap := by
  simp only [fillTiers, tierChain]
  by_cases h0 : gap < 1
  · rw [if_pos h0]
    rw [tierLoop_not_gt _ _ _ (lt_asymm h0), tierLoop_not_gt _ _ _ (lt_asymm h0),
      tierLoop_not_gt _ _ _ (lt_asymm h0)]
  · rw [if_neg h0]
    by_cases h1 : (tierLoop Tier.T1 st gap).2 < 1
    · rw [if_pos h1]
      rw [tierLoop_not_gt _ _ _ (lt_asymm h1)]
      rw [tierLoop_not_gt _ _ _ (lt_asymm h1)]
    · rw [if_neg h1]
      by_cases h2 : (tierLoop Tier.T2 (tierLoop Tier.T1 st gap).1 (tierLoop Tier.T1 st gap).2).2 < 1
      · rw [if_pos h2]
        rw [tierLoop_not_gt _ _ _ (lt_asymm h2)]
      · rw [if_neg h2]

/-- The new-borrowing pass only appends loans; all cash and bookkeeping
fields other than loans and logs are untouched. -/
theorem fillTiers_fields (st : SimState) (gap : ℚ) :
    (∃ new, (fillTiers st gap).1.loans = st.loans ++ new) ∧
    (fillTiers st gap).1.month = st.month ∧
    (fillTiers st gap).1.history = st.history ∧
    (fillTiers st gap).1.cfg = st.cfg ∧
    (fillTiers st gap).1.income = st.income ∧
    (fillTiers st gap).1.savings = st.savings ∧
    (fillTiers st gap).1.is_dead = st.is_dead := by
  rw [fillTiers_eq_tierChain]
  simp only [tierChain]
  obtain ⟨n1, e1, c1, i1, s1, m1, hh1, d1, _⟩ := tierLoop_spec Tier.T1 st gap
  obtain ⟨n2, e2, c2, i2, s2, m2, hh2, d2, _⟩ :=
    tierLoop_spec Tier.T2 (tierLoop Tier.T1 st gap).1 (tierLoop Tier.T1 st gap).2
  obtain ⟨n3, e3, c3, i3, s3, m3, hh3, d3, _⟩ :=
    tierLoop_spec Tier.T3
      (tierLoop Tier.T2 (tierLoop Tier.T1 st gap).1 (tierLoop Tier.T1 st gap).2).1
      (tierLoop Tier.T2 (tierLoop Tier.T1 st gap).1 (tierLoop Tier.T1 st gap).2).2
  refine ⟨⟨n1 ++ (n2 ++ n3), ?_⟩, ?_, ?_, ?_, ?_, ?_, ?_⟩
  · rw [e3, e2, e1]
    simp [List.append_assoc]
  · rw [m3, m2, m1]
  · rw [hh3, hh2, hh1]
  · rw [c3, c2, c1]
  · rw [i3, i2, i1]
  · rw [s3, s2, s1]
  · rw [d3, d2, d1]

/-- The revolving self-draw never changes the number of loans. -/
theorem revolvingDraw_length (month : ℕ) (gap : ℚ) (ls : List Loan) :
    (revolvingDraw month gap ls).1.length = ls.length := by
  induction ls generalizing gap with
  | nil => rfl
  | cons l rest ih =>
    simp only [revolvingDraw]
    split_ifs with hc hb
    · simp
    · simp [ih]
    · simp [ih]

/-- The revolving self-draw never touches a non-Revolving loan. -/
theorem revolvingDraw_get?_nonrev (month : ℕ) (gap : ℚ) (ls : List Loan) (i : ℕ) (l : Loan)
    (hget : ls[i]? = some l) (hnr : l.logic_type ≠ LogicType.Revolving) :
    (revolvingDraw month gap ls).1[i]? = some l := by
  induction ls generalizing gap i with
  | nil => simp at hget
  | cons hd rest ih =>
    cases i with
    | zero =>
      simp only [List.getElem?_cons_zero, Option.some.injEq] at hget
      subst hget
      simp only [revolvingDraw]
      split_ifs with hc hb
      · exact absurd hc.1 hnr
      · exact absurd hc.1 hnr
      · simp
    | succ i =>
      simp only [List.getElem?_cons_succ] at hget
      simp only [revolvingDraw]
      split_ifs with hc hb
      · simp [hget]
      · simp [ih _ _ hget]
      · simp [ih _ _ hget]

theorem get?_append_left {α : Type} (ls ext : List α) (i : ℕ) (a : α)
    (h : ls[i]? = some a) : (ls ++ ext)[i]? = some a := by
  have hi : i < ls.length := by
    by_contra hc
    rw [List.getElem?_eq_none (Nat.le_of_not_lt hc)] at h
    exact Option.noConfusion h
  rw [List.getElem?_append, if_pos hi]
  exact h

/-- The maturity-decrement pass does not touch a loan with zero balance. -/
theorem decrementMaturities_get?_zero (ls : List Loan) (i : ℕ) (l : Loan)
    (hget : ls[i]? = some l) (hbal : l.balance = 0) :
    (decrementMaturities ls)[i]? = some l := by
  simp only [decrementMaturities, List.getElem?_map, hget, Option.map_some']
  simp [hbal]

/-- The maturity-zeroing pass does not touch a loan with zero balance. -/
theorem zeroMatured_get?_zero (ls : List Loan) (i : ℕ) (l : Loan)
    (hget : ls[i]? = some l) (hbal : l.balance = 0) :
    (zeroMatured ls)[i]? = some l := by
  simp only [zeroMatured, List.getElem?_map, hget, Option.map_some']
  simp [hbal]

theorem drawSavings_fields (p : SimState × ℚ) :
    (drawSavings p).1.loans = p.1.loans ∧
    (drawSavings p).1.month = p.1.month ∧
    (drawSavings p).1.history = p.1.history ∧
    (drawSavings p).1.cfg = p.1.cfg ∧
    (drawSavings p).1.income = p.1.income ∧
    (drawSavings p).1.is_dead = p.1.is_dead := by
  obtain ⟨st, gap⟩ := p
  simp only [drawSavings]
  split_ifs <;> exact ⟨rfl, rfl, rfl, rfl, rfl, rfl⟩

theorem drawRevolving_fields (p : SimState × ℚ) :
    (drawRevolving p).1.loans.length = p.1.loans.length ∧
    (drawRevolving p).1.month = p.1.month ∧
    (drawRevolving p).1.history = p.1.history ∧
    (drawRevolving p).1.cfg = p.1.cfg ∧
    (drawRevolving p).1.income = p.1.income ∧
    (drawRevolving p).1.savings = p.1.savings ∧
    (drawRevolving p).1.is_dead = p.1.is_dead := by
  obtain ⟨st, gap⟩ := p
  simp only [drawRevolving]
  split_ifs
  · exact ⟨revolvingDraw_length _ _ _, rfl, rfl, rfl, rfl, rfl, rfl⟩
  · exact ⟨rfl, rfl, rfl, rfl, rfl, rfl, rfl⟩

theorem drawRevolving_get?_nonrev (p : SimState × ℚ) (i : ℕ) (l : Loan)
    (hget : p.1.loans[i]? = some l) (hnr : l.logic_type ≠ LogicType.Revolving) :
    (drawRevolving p).1.loans[i]? = some l := by
  obtain ⟨st, gap⟩ := p
  simp only [drawRevolving]
  split_ifs
  · exact revolvingDraw_get?_nonrev _ _ _ _ _ hget hnr
  · exact hget

theorem drawNewLoans_fields (p : SimState × ℚ) :
    (∃ new, (drawNewLoans p).1.loans = p.1.loans ++ new) ∧
    (drawNewLoans p).1.month = p.1.month ∧
    (drawNewLoans p).1.history = p.1.history ∧
    (drawNewLoans p).1.cfg = p.1.cfg ∧
    (drawNewLoans p).1.income = p.1.income ∧
    (drawNewLoans p).1.savings = p.1.savings ∧
    (drawNewLoans p).1.is_dead = p.1.is_dead := by
  obtain ⟨st, gap⟩ := p
  simp only [drawNewLoans]
  split_ifs
  · exact fillTiers_fields st gap
  · exact ⟨⟨[], by simp⟩, rfl, rfl, rfl, rfl, rfl, rfl⟩

theorem drawNewLoans_get? (p : SimState × ℚ) (i : ℕ) (l : Loan)
    (hget : p.1.loans[i]? = some l) :
    (drawNewLoans p).1.loans[i]? = some l := by
  obtain ⟨new, hnew⟩ := (drawNewLoans_fields p).1
  rw [hnew]
  exact get?_append_left _ _ _ _ hget

theorem finishMonth_fields (p : SimState × ℚ) :
    (finishMonth p).month = p.1.month ∧
    (finishMonth p).loans = p.1.loans ∧
    (finishMonth p).savings = p.1.savings ∧
    (finishMonth p).history.length = p.1.history.length + 1 := by
  obtain ⟨st, gap⟩ := p
  simp only [finishMonth, record_stats]
  split_ifs <;> exact ⟨rfl, rfl, rfl, by simp⟩

/-- The two formulations of the new-borrowing stage agree. -/
theorem drawNewLoans_eq_amended (p : SimState × ℚ) :
    drawNewLoans p = drawNewLoansAmended p := by
  obtain ⟨st, gap⟩ := p
  simp only [drawNewLoans, drawNewLoansAmended, fillTiers_eq_tierChain]

/-- One month never touches a non-Revolving loan whose balance is already
zero: the maturity passes skip zero balances, the revolving stage skips
non-Revolving loans, and new borrowing only appends. -/
theorem run_month_nonrev_zero (s : SimState) (i : ℕ) (l : Loan)
    (hget : s.loans[i]? = some l) (hnr : l.logic_type ≠ LogicType.Revolving)
    (hbal : l.balance = 0) :
    (run_month s).loans[i]? = some l := by
  have h2 : (zeroMatured (decrementMaturities s.loans))[i]? = some l :=
    zeroMatured_get?_zero _ _ _ (decrementMaturities_get?_zero _ _ _ hget hbal) hbal
  simp only [run_month]
  split_ifs <;> rw [(finishMonth_fields _).2.1] <;>
    first
      | exact h2
      | exact drawNewLoans_get? _ _ _
          (drawRevolving_get?_nonrev _ _ _ (by rw [(drawSavings_fields _).1]; exact h2) hnr)

theorem runMonths_nonrev_zero (n : ℕ) (s : SimState) (i : ℕ) (l : Loan)
    (hget : s.loans[i]? = some l) (hnr : l.logic_type ≠ LogicType.Revolving)
    (hbal : l.balance = 0) :
    (runMonths n s).loans[i]? = some l := by
  induction n generalizing s with
  | zero => exact hget
  | succ n ih =>
    simp only [runMonths]
    exact ih _ (run_month_nonrev_zero s i l hget hnr hbal)

/-- Claim C1 (corrected), counterexample: the claim states that once the
remaining gap is `≤ 1` no further revolving draw occurs, i.e. that
`run_month` equals `run_month_claimed` (which differs from `run_month`
only in stopping the revolving stage at `gap ≤ 1` instead of the code's
`gap < 1`). In `c1Start` the deficit gap is 3, loan A's draw of 2 leaves
the gap at exactly 1, and the code still draws 1 from loan B, so the two
disagree: the claim as stated is false. -/
theorem C1_counterexample :
    run_month c1Start ≠ run_month_claimed c1Start ∧
    (run_month c1Start).loans.map Loan.balance = [10, 6] ∧
    (run_month_claimed c1Start).loans.map Loan.balance = [10, 5] := by
  with_unfolding_all decide

/-- Claim C1 (corrected), amended: in a deficit month `run_month` resolves
the gap in strict priority order - savings draw, then first-fit revolving
draws, then origination tier by tier in the order T1, T2, T3; the
revolving stage and the origination stage are entered only while the gap
exceeds 1, new origination ceases once the gap is `≤ 1`, but the
revolving stage keeps drawing until the gap is `< 1`, so one more
revolving draw can occur at a remaining gap of exactly 1. This is exactly
`run_month_amended`, and `run_month` computes it. -/
theorem C1_amended_priority_order (s : SimState) :
    run_month s = run_month_amended s := by
  simp only [run_month, run_month_amended, drawNewLoans_eq_amended]

/-- Claim C2 (corrected), counterexample: in `c2Start`, loan A (Revolving)
fires its maturity event in month 1 (balance 4 zeroed, counter 0), yet at
the end of month 2 its balance is 10 again: the month-2 deficit's
revolving stage drew onto the matured loan, because the revolving
self-draw only checks `logic_type == Revolving` and `balance < limit`,
never maturity. The claim's "balance is 0 at the end of every subsequent
month" is false. -/
theorem C2_counterexample :
    (runMonths 1 c2Start).loans.map Loan.balance = [0, 50] ∧
    (runMonths 1 c2Start).loans.map Loan.maturity = [0, 1] ∧
    (runMonths 2 c2Start).loans.map Loan.balance = [10, 0] := by
  with_unfolding_all decide

/-- Claim C2 (corrected), amended: after a maturity event the balance is
zeroed, but only for non-Revolving loans is it permanently 0 afterwards
(a matured Revolving loan with headroom may be redrawn by later revolving
stages). Formally: a non-Revolving loan with zero balance is never
touched again by any number of months. -/
theorem C2_amended_matured_fixed_stays_zero (s : SimState) (n i : ℕ) (l : Loan)
    (hget : s.loans[i]? = some l) (hnr : l.logic_type ≠ LogicType.Revolving)
    (hbal : l.balance = 0) :
    (runMonths n s).loans[i]? = some l :=
  runMonths_nonrev_zero n s i l hget hnr hbal

/-- Claim C3 (confirmed): in a month with `net_flow ≥ 0` the savings grow
by exactly `net_flow` and the loan list is unchanged except for the
maturity bookkeeping (in particular no loan is appended: the list keeps
its length and no origination happens). -/
theorem C3_surplus_month (s : SimState) (h : 0 ≤ net_flow s) :
    (run_month s).savings = s.savings + net_flow s ∧
    (run_month s).loans = zeroMatured (decrementMaturities s.loans) ∧
    (run_month s).loans.length = s.loans.length := by
  have hloans : (run_month s).loans = zeroMatured (decrementMaturities s.loans) := by
    simp only [run_month]
    split_ifs <;> rw [(finishMonth_fields _).2.1]
  have hsav : (run_month s).savings = s.savings + net_flow s := by
    simp only [run_month]
    split_ifs <;> rw [(finishMonth_fields _).2.2.1]
  refine ⟨hsav, hloans, ?_⟩
  rw [hloans]
  simp [zeroMatured, decrementMaturities]

/-- Witness for C3 at the spec's surplus example (scaled): the gap-free
month adds the whole net flow of 8 to savings. -/
theorem C3_surplus_month_witness :
    0 ≤ net_flow c3Start ∧
    (run_month c3Start).savings = c3Start.savings + net_flow c3Start ∧
    (run_month c3Start).loans.length = c3Start.loans.length :=
  ⟨by with_unfolding_all decide,
   (C3_surplus_month c3Start (by with_unfolding_all decide)).1,
   (C3_surplus_month c3Start (by with_unfolding_all decide)).2.2⟩

/-- Claim C4 (confirmed): with the toxic block enabled and any active T3
account, every T1 offer request returns `(0, 0)`, whatever the income and
the T1 count. -/
theorem C4_toxic_block (cfg : MarketConfig) (income : ℚ) (counts : Counts)
    (hflag : cfg.TOXIC_BLOCK = true) (ht3 : 0 < counts.t3) :
    get_offer cfg Tier.T1 income counts = (0, 0) := by
  rw [get_offer, if_pos ⟨hflag, rfl, ht3⟩]

/-- Witness for C4 at a concrete configuration and counts. -/
theorem C4_toxic_block_witness :
    get_offer cfgToxic Tier.T1 10 ⟨0, 0, 1⟩ = (0, 0) :=
  C4_toxic_block cfgToxic 10 ⟨0, 0, 1⟩ rfl (by decide)

/-- Claim C5 (confirmed): if the T2 origination loop (entered from the
state `st1` and gap `gap1` in which the T1 loop stopped) originates any
loan, then the gap was still above 1 and the T1 offer at the then-current
state (the last T1 offer requested) was refused with a non-positive
limit: no T2 loan is originated while a T1 offer is still available. -/
theorem C5_tier_order (st st1 : SimState) (gap gap1 : ℚ)
    (h1 : tierLoop Tier.T1 st gap = (st1, gap1))
    (h2 : st1.loans.length < (tierLoop Tier.T2 st1 gap1).1.loans.length) :
    1 < gap1 ∧
    (get_offer st1.cfg Tier.T1 st1.income (get_counts st1.loans)).1 ≤ 0 := by
  have hgap : 1 < gap1 := by
    by_contra hc
    rw [tierLoop_not_gt _ _ _ hc] at h2
    exact lt_irrefl _ h2
  refine ⟨hgap, ?_⟩
  have h3 := tierLoop_exit Tier.T1 st gap (by rw [h1]; exact hgap)
  rw [h1] at h3
  exact h3

/-- Witness for C5: with T1 closed (`MAX_ORGS_T1 = 0`) and T2 open, the
T1 loop leaves the state unchanged, the T2 loop originates, and indeed
the T1 offer at that state is refused. -/
theorem C5_tier_order_witness :
    1 < (5 : ℚ) ∧ (get_offer c5St.cfg Tier.T1 c5St.income (get_counts c5St.loans)).1 ≤ 0 :=
  C5_tier_order c5St c5St 5 5 (by with_unfolding_all decide) (by with_unfolding_all decide)

/-- Claim C6 (corrected), counterexample: `c6Dead` is a dead state
(`is_dead = true`), yet `run_month` on it does not fail or leave the
state unchanged - it increments the month, appends a snapshot and mutates
savings, silently advancing the dead simulation. -/
theorem C6_counterexample :
    c6Dead.is_dead = true ∧
    (run_month c6Dead).month = c6Dead.month + 1 ∧
    (run_month c6Dead).history.length = c6Dead.history.length + 1 ∧
    (run_month c6Dead).savings ≠ c6Dead.savings := by
  with_unfolding_all decide

/-- Claim C6 (corrected), amended: `run_month` performs no dead-state
guard at all: for every state, dead or alive, it increments the month and
appends exactly one history snapshot; callers are responsible for
checking `is_dead` before calling (as the app's driver loop does). -/
theorem C6_no_dead_guard (s : SimState) :
    (run_month s).month = s.month + 1 ∧
    (run_month s).history.length = s.history.length + 1 := by
  constructor
  · simp only [run_month]
    split_ifs <;>
      rw [(finishMonth_fields _).1] <;>
      first
        | rfl
        | rw [(drawNewLoans_fields _).2.1, (drawRevolving_fields _).2.1,
            (drawSavings_fields _).2.1]
  · simp only [run_month]
    split_ifs <;>
      rw [(finishMonth_fields _).2.2.2] <;>
      first
        | rfl
        | rw [(drawNewLoans_fields _).2.2.1, (drawRevolving_fields _).2.2.1,
            (drawSavings_fields _).2.2.1]

/-- Claim C7 (corrected), counterexample: constructing a simulator with a
negative income does not fail - the constructor stores the input verbatim
and the engine happily runs a month on it. -/
theorem C7_counterexample :
    c7Bad.income = -1 ∧ (run_month c7Bad).month = 1 ∧
    (run_month c7Bad).history.length = 1 := by
  with_unfolding_all decide

/-- Claim C7 (corrected), amended: `DebtSpiralSimulator.__init__` performs
no validation whatsoever: for every input (including non-positive income
or negative balances) construction succeeds and simply stores the inputs,
starting at month 0, alive, with empty logs and history. -/
theorem C7_no_validation (income savings living_cost : ℚ) (loans : List Loan)
    (cfg : MarketConfig) :
    initSimulator income savings living_cost loans cfg =
      { income := income, savings := savings, living_cost := living_cost, loans := loans,
        cfg := cfg, month := 0, is_dead := false, death_reason := "",
        structured_logs := [], history := [] } := rfl

/-- Claim C8 (confirmed): loan classification is total with explicit
defaults - any org code outside the fixed table maps to T3, any
account-type code outside the fixed table maps to Fixed, and a loan
created without a rate gets the tier default T1=8%, T2=18%, T3=24%. -/
theorem C8_classification_total :
    (∀ code : ℤ, code ∉ ORG_TIER_MAP.map Prod.fst → classifyTier code = Tier.T3) ∧
    (∀ acct : String, acct ∉ ACCT_TYPE_MAP.map Prod.fst → classifyLogic acct = LogicType.Fixed) ∧
    (∀ (name : String) (org : ℤ) (acct : String) (limit balance pay : ℚ) (mat : ℤ),
      (mkLoan name org acct limit balance pay mat none).rate = defaultRate (classifyTier org)) ∧
    defaultRate Tier.T1 = 8/100 ∧ defaultRate Tier.T2 = 18/100 ∧ defaultRate Tier.T3 = 24/100 := by
  refine ⟨?_, ?_, ?_, rfl, rfl, rfl⟩
  · intro code h
    unfold classifyTier
    rw [lookup_eq_none_of_not_mem _ _ h]
    rfl
  · intro acct h
    unfold classifyLogic
    rw [lookup_eq_none_of_not_mem _ _ h]
    rfl
  · intro name org acct limit balance pay mat
    rfl

/-- Witness for C8 at concrete unmapped codes and a rate-less loan. -/
theorem C8_classification_total_witness :
    classifyTier 13 = Tier.T3 ∧ classifyLogic "Z9" = LogicType.Fixed ∧
    (mkLoan "x" 11 "R1" 0 0 0 0 none).rate = defaultRate (classifyTier 11) :=
  ⟨C8_classification_total.1 13 (by decide),
   C8_classification_total.2.1 "Z9" (by decide),
   C8_classification_total.2.2.1 "x" 11 "R1" 0 0 0 0⟩

/-- Claim C9 (confirmed): the simulation is a deterministic function of
its inputs - two simulators whose states agree field by field (as two
deep copies of the same initial data do) produce identical history and
log sequences after any number of months. -/
theorem C9_determinism (n : ℕ) (s1 s2 : SimState)
    (h : s1.income = s2.income ∧ s1.savings = s2.savings ∧
      s1.living_cost = s2.living_cost ∧ s1.loans = s2.loans ∧ s1.cfg = s2.cfg ∧
      s1.month = s2.month ∧ s1.is_dead = s2.is_dead ∧
      s1.death_reason = s2.death_reason ∧ s1.structured_logs = s2.structured_logs ∧
      s1.history = s2.history) :
    (runMonths n s1).history = (runMonths n s2).history ∧
    (runMonths n s1).structured_logs = (runMonths n s2).structured_logs := by
  obtain ⟨h1, h2, h3, h4, h5, h6, h7, h8, h9, h10⟩ := h
  have hs : s1 = s2 := by
    cases s1
    cases s2
    simp_all
  rw [hs]
  exact ⟨rfl, rfl⟩

/-- Witness for C9 on a concrete three-month run. -/
theorem C9_determinism_witness :
    (runMonths 3 c9St).history = (runMonths 3 c9St).history ∧
    (runMonths 3 c9St).structured_logs = (runMonths 3 c9St).structured_logs :=
  C9_determinism 3 c9St c9St ⟨rfl, rfl, rfl, rfl, rfl, rfl, rfl, rfl, rfl, rfl⟩

/-- Claim C10 (confirmed): every loan originated by the gap-filling loop
for a source tier carries the hard-coded org code of that tier (which
classifies back to the tier), account type `R1` (hence Revolving), a
positive balance `min(limit, gap)` never exceeding its credit limit; and
`get_counts` attributes any positive-balance loan to its tier in all
subsequent counts. -/
theorem C10_origination (source : Tier) (st : SimState) (gap : ℚ) :
    (∃ new : List Loan,
      (tierLoop source st gap).1.loans = st.loans ++ new ∧
      ∀ l ∈ new, l.org_code = tierOrgCode source ∧ l.acct_type_code = "R1" ∧
        l.tier = source ∧ l.logic_type = LogicType.Revolving ∧
        0 < l.balance ∧ l.balance ≤ l.limit) ∧
    classifyTier (tierOrgCode source) = source ∧
    classifyLogic "R1" = LogicType.Revolving ∧
    (∀ (ls : List Loan) (l : Loan), 0 < l.balance →
      (get_counts (ls ++ [l])).get l.tier = (get_counts ls).get l.tier + 1) := by
  refine ⟨?_, classifyTier_tierOrgCode source, classifyLogic_R1, ?_⟩
  · obtain ⟨new, e, _, _, _, _, _, _, props⟩ := tierLoop_spec source st gap
    refine ⟨new, e, fun l hl => ?_⟩
    obtain ⟨p1, p2, p3, p4, p5, p6⟩ := props l hl
    exact ⟨p3, p4, p1, p2, p5, p6⟩
  · intro ls l hbal
    rw [get_counts_get, get_counts_get, tierCount_append, if_pos ⟨hbal, rfl⟩]

/-- Witness for C10: counting attribution at a concrete loan, and the
origination decomposition at a concrete tier and state. -/
theorem C10_origination_witness :
    (get_counts ([] ++ [c10Loan])).get c10Loan.tier =
      (get_counts []).get c10Loan.tier + 1 ∧
    classifyTier (tierOrgCode Tier.T2) = Tier.T2 :=
  ⟨(C10_origination Tier.T2 c5St 0).2.2.2 [] c10Loan (by with_unfolding_all decide),
   (C10_origination Tier.T2 c5St 0).2.1⟩


/-- Witness for the amended C2: a zero-balance Fixed loan is untouched by
two simulated months. -/
theorem C2_amended_matured_fixed_stays_zero_witness :
    (runMonths 2 c2ZeroStart).loans[0]? = some c2ZeroLoan :=
  C2_amended_matured_fixed_stays_zero c2ZeroStart 2 0 c2ZeroLoan rfl (by decide) rfl
